import Mathlib

/-!
Verification of the retention-aware routing and aggregation engine of
`zabbix_db.py` (class `ZabbixDB`).  The shallow embedding below translates
the decision logic of the source into Lean: Python floats are modelled as
exact rationals, fallible Python code returns `Except PyExc`, and the
database collaborators (cursor fetches) are explicit oracle parameters.
Python string messages that quote names with apostrophes are rendered
without the quote characters; only the message prefixes matter here.
-/

/-- Decidable equality for `Except`, so that embedded results can be
compared on concrete inputs. -/
instance {ε α : Type} [DecidableEq ε] [DecidableEq α] : DecidableEq (Except ε α) := fun a b =>
  match a, b with
  | .ok x, .ok y =>
    if h : x = y then isTrue (by rw [h])
    else isFalse (by intro hh; injection hh; contradiction)
  | .ok _, .error _ => isFalse (by intro hh; exact Except.noConfusion hh)
  | .error _, .ok _ => isFalse (by intro hh; exact Except.noConfusion hh)
  | .error x, .error y =>
    if h : x = y then isTrue (by rw [h])
    else isFalse (by intro hh; injection hh; contradiction)

/-- One row of a history/trends fetch: a dict with keys `clock` and `value`.
Values are modelled as exact rationals. -/
structure Sample where
  clock : Int
  value : Rat
deriving DecidableEq, Repr

/-- Python banker rounding of a rational to the nearest integer
(half-to-even), as used by `round`. -/
def pyRound (q : Rat) : Int :=
  let f := ⌊q⌋
  let r := q - (f : Rat)
  if r < 1 / 2 then f
  else if 1 / 2 < r then f + 1
  else if f % 2 = 0 then f else f + 1

/-- `round(x, 2)` from the source: round to two decimal places. -/
def round2 (q : Rat) : Rat := (pyRound (q * 100) : Rat) / 100

/-- Python exceptions that the embedded code can raise. -/
inductive PyExc where
  | keyError (k : String)
  | typeError (msg : String)
  | runtimeError (msg : String)
  | statisticsError (msg : String)
  | valueError (msg : String)
deriving DecidableEq, Repr

/-- The polymorphic values that can appear in the `data` field of a
response: a list of sample dicts, a numeric scalar, the result of
`statistics.stdev` (represented exactly: `sqrtNum q` stands for the real
number `Real.sqrt q`), a plain string, or a returned (not raised)
`RuntimeError` object. -/
inductive DataVal where
  | rows (l : List Sample)
  | num (q : Rat)
  | sqrtNum (q : Rat)
  | str (s : String)
  | runtimeError (msg : String)
deriving DecidableEq, Repr

/-- `min(values)` for a nonempty list (0 on the empty list, which the
source never reaches). -/
def listMinD : List Rat → Rat
  | [] => 0
  | x :: xs => xs.foldl min x

/-- `max(values)` for a nonempty list. -/
def listMaxD : List Rat → Rat
  | [] => 0
  | x :: xs => xs.foldl max x

/-- `[max(data, key=lambda x: x[clock])]`: the first sample attaining the
maximal clock, as a one-element list. -/
def pyMaxByClock : List Sample → List Sample
  | [] => []
  | x :: xs => [xs.foldl (fun acc s => if acc.clock < s.clock then s else acc) x]

/-- Ascending sort of rationals, used by `statistics.median`. -/
def sortedValues (l : List Rat) : List Rat := l.mergeSort (fun a b => a ≤ b)

/-- `statistics.median`: middle element of the sorted list, or the average
of the two middle elements for even length. -/
def pyMedian (l : List Rat) : Rat :=
  let s := sortedValues l
  let n := s.length
  if n % 2 = 1 then s.getD (n / 2) 0
  else (s.getD (n / 2 - 1) 0 + s.getD (n / 2) 0) / 2

/-- Sample variance with the `n - 1` divisor; `statistics.stdev` returns
its square root. -/
def sampleVariance (l : List Rat) : Rat :=
  let m := l.sum / (l.length : Rat)
  ((l.map (fun x => (x - m) ^ 2)).sum) / ((l.length : Rat) - 1)

/-- `ZabbixDB.compute_statistic`: reduce a list of `(clock, value)` dicts
by a named operation.  Mirrors the source line by line: the empty-input
check comes first; `values` rounds each value to two decimals; `min`/`max`
filter the raw values against the rounded extremum; unsupported operations
raise `ValueError`; `statistics.stdev` raises `StatisticsError` on fewer
than two points. -/
def compute_statistic (data : List Sample) (operation : String) : Except PyExc DataVal :=
  if data = [] then .ok (.rows [])
  else
    let values := data.map (fun s => round2 s.value)
    if operation = "min" then
      .ok (.rows (data.filter (fun s => s.value = listMinD values)))
    else if operation = "max" then
      .ok (.rows (data.filter (fun s => s.value = listMaxD values)))
    else if operation = "last" then
      .ok (.rows (pyMaxByClock data))
    else if operation = "mean" ∨ operation = "avg" then
      .ok (.num (values.sum / (values.length : Rat)))
    else if operation = "median" then
      .ok (.num (pyMedian values))
    else if operation = "stdev" then
      if values.length < 2 then
        .error (.statisticsError "stdev requires at least two data points")
      else .ok (.sqrtNum (sampleVariance values))
    else if operation = "sum" then .ok (.num values.sum)
    else if operation = "count" then .ok (.num (values.length : Rat))
    else if operation = "range" then .ok (.num (listMaxD values - listMinD values))
    else if operation = "mad" then
      .ok (.num (pyMedian (values.map (fun x => |x - pyMedian values|))))
    else .error (.valueError ("Unsupported operation: " ++ operation))

/-- Token scanner for `re.findall(r'(\d+)([dhm])', duration.lower())`:
maximal digit runs immediately followed by a unit character become tokens,
everything else is skipped. -/
def scanDurationTokens : List Char → Nat → Bool → List (Nat × Char)
  | [], _, _ => []
  | c :: rest, acc, run =>
    if c.isDigit then scanDurationTokens rest (acc * 10 + (c.toNat - 48)) true
    else if run ∧ (c = 'd' ∨ c = 'h' ∨ c = 'm') then
      (acc, c) :: scanDurationTokens rest 0 false
    else scanDurationTokens rest 0 false

/-- `ZabbixDB.convert_day`: parse a compact duration string into a day
count, rounded to two decimals (`duration.lower()` is modelled as a
character-wise lowercase map). -/
def convert_day (duration : String) : Rat :=
  let toks := scanDurationTokens (duration.toList.map Char.toLower) 0 false
  let total := toks.foldl
    (fun t vu =>
      if vu.2 = 'd' then t + (vu.1 : Rat)
      else if vu.2 = 'h' then t + (vu.1 : Rat) / 24
      else t + (vu.1 : Rat) / (24 * 60)) 0
  round2 total

/-- Python `int()` truncation toward zero of a rational. -/
def pyTruncInt (q : Rat) : Int := if q < 0 then -(⌊-q⌋) else ⌊q⌋

/-- `int(current_time - history_days * 86400)`. -/
def historyThreshold (now history_days : Rat) : Int :=
  pyTruncInt (now - history_days * 86400)

/-- `int(current_time - trends_days * 86400)`. -/
def trendsThreshold (now trends_days : Rat) : Int :=
  pyTruncInt (now - trends_days * 86400)

/-- `ZabbixDB.get_function_name`: classify a request window against the
retention thresholds.  `now` (Python `datetime.now().timestamp()`) is an
explicit parameter of the embedding. -/
def get_function_name (now : Rat) (time_from time_to : Int)
    (history_days trends_days : Rat) : String :=
  let history_threshold := historyThreshold now history_days
  let trends_threshold := trendsThreshold now trends_days
  if time_to < trends_threshold then "No data - too old"
  else if time_from ≥ history_threshold then "get_history"
  else if time_to ≤ history_threshold ∧ time_from ≥ trends_threshold then "get_trends"
  else if time_from < history_threshold ∧ time_to ≥ history_threshold then "get_trends"
  else "Invalid range"

/-- Outcome of one raw cursor fetch against the database: either the
fetched rows or a driver-level error (`MySQLError`/`PostgresError`). -/
inductive DbFetch (α : Type) where
  | rows (val : α)
  | dbError (msg : String)
deriving DecidableEq, Repr

/-- One row of the `items` join query in `get_item_detail`. -/
structure ItemRow where
  itemid : Nat
  hostid : Nat
  name : String
  history : String
  trends : String
  value_type : Nat
  status : Nat
  units : String
  host : String
deriving DecidableEq, Repr

/-- `table_mapping[value_type][history]` from `get_item_detail`. -/
def historyTableName : Nat → Option String
  | 0 => some "history"
  | 1 => some "history_str"
  | 2 => some "history_log"
  | 3 => some "history_uint"
  | 4 => some "history_text"
  | _ => none

/-- `table_mapping[value_type][trends]` from `get_item_detail`. -/
def trendsTableName : Nat → Option String
  | 0 => some "trends"
  | 3 => some "trends_uint"
  | _ => none

/-- The dict built by `map_item` inside `get_item_detail`. -/
structure ItemDetails where
  hostname : String
  itemid : Nat
  hostid : Nat
  name : String
  history : String
  trends : String
  value_type : Nat
  status : Nat
  units : String
  history_table_name : Option String
  trends_table_name : Option String
deriving DecidableEq, Repr

/-- `map_item` from `get_item_detail`: a `value_type` outside the mapping
raises `RuntimeError` (the internal invariant break). -/
def map_item (r : ItemRow) : Except PyExc ItemDetails :=
  if r.value_type ∈ [0, 1, 2, 3, 4] then
    .ok { hostname := r.host, itemid := r.itemid, hostid := r.hostid,
          name := r.name, history := r.history, trends := r.trends,
          value_type := r.value_type, status := r.status, units := r.units,
          history_table_name := historyTableName r.value_type,
          trends_table_name := trendsTableName r.value_type }
  else
    .error (.runtimeError ("Invalid value_type " ++ toString r.value_type
      ++ " for item " ++ r.name))

/-- `ZabbixDB.get_item_detail` with a hostname: no connection and a failed
query both RAISE `RuntimeError`; no matching rows returns `None`;
otherwise the first row is mapped. -/
def get_item_detail (connected : Bool) (itemRows : DbFetch (List ItemRow)) :
    Except PyExc (Option ItemDetails) :=
  if !connected then .error (.runtimeError "No active database connection")
  else
    match itemRows with
    | .dbError e => .error (.runtimeError ("Failed to fetch item details: " ++ e))
    | .rows [] => .ok none
    | .rows (r :: _) => (map_item r).map some

/-- `ZabbixDB.get_item_detail` without a hostname: every row is mapped. -/
def get_item_detail_all (connected : Bool) (itemRows : DbFetch (List ItemRow)) :
    Except PyExc (Option (List ItemDetails)) :=
  if !connected then .error (.runtimeError "No active database connection")
  else
    match itemRows with
    | .dbError e => .error (.runtimeError ("Failed to fetch item details: " ++ e))
    | .rows [] => .ok none
    | .rows rs => (rs.mapM map_item).map some

/-- Value returned by `get_monitoring_Status`: a status code, or a
`RuntimeError` OBJECT returned (not raised) by the source. -/
inductive MonStatus where
  | code (n : Nat)
  | rte (msg : String)
deriving DecidableEq, Repr

/-- `ZabbixDB.get_monitoring_Status`: the oracle `hostRow` is the `status`
column of `fetchone` (`none` when the host is absent, in which case the
subscript of `None` raises `TypeError`). -/
def get_monitoring_Status (connected : Bool) (hostRow : DbFetch (Option Int)) :
    Except PyExc MonStatus :=
  if !connected then .ok (.rte "Database connection not established")
  else
    match hostRow with
    | .dbError e => .ok (.rte ("Query failed: " ++ e))
    | .rows none => .error (.typeError "NoneType object is not subscriptable")
    | .rows (some st) => if st ≠ 1 then .ok (.code 0) else .ok (.code 1)

/-- One flattened record of `get_host_by_metric` (a row of its DataFrame). -/
structure HostMetricRow where
  hostname : Option String
  unit : Option String
  clock : Option Int
  value : Option DataVal
deriving DecidableEq, Repr

/-- A value stored in a response dict. -/
inductive RVal where
  | str (s : String)
  | data (v : DataVal)
  | rowRecords (l : List HostMetricRow)
  | null
deriving DecidableEq, Repr

/-- A response dict, modelled as its insertion-ordered key/value pairs. -/
abbrev Resp := List (String × RVal)

/-- `metric_data.get(k)`. -/
def respGet (r : Resp) (k : String) : Option RVal :=
  (r.find? (fun kv => kv.1 = k)).map (fun kv => kv.2)

/-- `ZabbixDB._error_response`: always contains every key, including a
null `statistical_measure` when none was given. -/
def _error_response (message hostname metric_name unit : String)
    (statistical_measure : Option String) : Resp :=
  [("status", .str "error"), ("message", .str message),
   ("hostname", .str hostname), ("metric_name", .str metric_name),
   ("unit", .str unit), ("data", .data (.rows [])),
   ("statistical_measure",
     match statistical_measure with
     | some s => RVal.str s
     | none => RVal.null)]

/-- `ZabbixDB._success_response`: build the full parameter dict (note the
source hardcodes `time_from`/`time_to`/`limit`/`host_group` to `None`)
then drop every key whose value is `None`. -/
def _success_response (data : Option RVal)
    (hostname metric_name unit statistical_measure : Option String) : Resp :=
  (([("status", some (RVal.str "success")), ("data", data),
     ("hostname", hostname.map RVal.str),
     ("metric_name", metric_name.map RVal.str),
     ("unit", unit.map RVal.str),
     ("statistical_measure", statistical_measure.map RVal.str),
     ("time_from", none), ("time_to", none),
     ("limit", none), ("host_group", none)] : List (String × Option RVal)).filterMap
    (fun kv => kv.2.map (fun v => (kv.1, v))))

/-- The closed set `valid_stats`. -/
def validStats : List String :=
  ["min", "max", "mean", "median", "stdev", "sum", "count", "range", "mad",
   "last", "avg"]

/-- Python truthiness of an optional statistic string (`None` and the
empty string are falsy). -/
def optTruthy : Option String → Bool
  | none => false
  | some s => s ≠ ""

/-- `ZabbixDB.get_history_data`: `historyFetch` is the `fetchall` oracle
for the history query.  Driver errors become returned `RuntimeError`
objects; exceptions raised by `compute_statistic` propagate. -/
def get_history_data (connected : Bool) (historyFetch : DbFetch (List Sample))
    (history_table_name : String) (statistical_measure : Option String) :
    Except PyExc DataVal :=
  if !connected then .ok (.str "No active database connection")
  else if ¬ (history_table_name ∈
      ["history", "history_str", "history_log", "history_uint", "history_text"]) then
    .ok (.str ("Invalid history table name: " ++ history_table_name))
  else
    match historyFetch with
    | .dbError e => .ok (.runtimeError ("Query failed: " ++ e))
    | .rows result =>
      match statistical_measure with
      | none => .ok (.rows result)
      | some s =>
        if s = "" then .ok (.rows result)
        else if ¬ (s ∈ validStats) then
          .ok (.runtimeError ("Invalid statistical measure: " ++ s))
        else compute_statistic result s

/-- String rendering of the trend table argument (Python prints `None`). -/
def optTableStr : Option String → String
  | none => "None"
  | some s => s

/-- `ZabbixDB.get_trend_data`: the oracle `trendFetch` is keyed by the
value-column expression the source interpolates into the query. -/
def get_trend_data (connected : Bool) (trendFetch : String → DbFetch (List Sample))
    (trend_table_name : Option String) (statistical_measure : Option String) :
    Except PyExc DataVal :=
  if !connected then .ok (.str "No active database connection")
  else if ¬ (trend_table_name = some "trends" ∨ trend_table_name = some "trends_uint") then
    .ok (.str ("Invalid history table name: " ++ optTableStr trend_table_name))
  else
    let valueCol :=
      if ¬ (statistical_measure = some "min" ∨ statistical_measure = some "max"
            ∨ statistical_measure = some "all") then "value_avg"
      else if statistical_measure = some "all" then "num, value_avg, value_min, value_max"
      else if statistical_measure = some "max" then "value_max"
      else "value_min"
    match trendFetch valueCol with
    | .dbError e => .ok (.runtimeError ("Query failed: " ++ e))
    | .rows result =>
      match statistical_measure with
      | none => .ok (.rows result)
      | some s =>
        if s = "" then .ok (.rows result)
        else if ¬ (s ∈ validStats) then
          .ok (.runtimeError ("Invalid statistical measure: " ++ s))
        else compute_statistic result s

/-- Database state seen by one `get_metric_data` call: connection flag and
the oracles for the host-status row, the item rows, and the two fetches. -/
structure Env where
  connected : Bool
  hostRow : DbFetch (Option Int)
  itemRows : DbFetch (List ItemRow)
  historyFetch : DbFetch (List Sample)
  trendFetch : String → DbFetch (List Sample)

/-- The statistic that actually reaches the fetch layer: for a
string/log/text item every statistic other than `last` is dropped. -/
def droppedStat (env : Env) (st : Option String) : Option String :=
  match env.itemRows with
  | .rows (r :: _) =>
    match historyTableName r.value_type with
    | some ht =>
      if ht = "history_str" ∨ ht = "history_log" ∨ ht = "history_text" then
        (if st = some "last" then st else none)
      else st
    | none => st
  | _ => st

/-- `ZabbixDB.get_metric_data`, with `now` and the collaborator oracles
explicit.  Only `MySQLError`/`PostgresError` are caught by the source;
every other exception (KeyError from the fetch dispatch dict, RuntimeError
from `get_item_detail`, TypeError/StatisticsError) propagates as
`.error`. -/
def get_metric_data (now : Rat) (env : Env) (hostname metric_name : String)
    (time_from time_to : Int) (statistical_measure : Option String) :
    Except PyExc Resp :=
  if time_to < time_from then
    .ok (_error_response "Invalid time range: time_from must be less than time_to"
      hostname metric_name "unknown" statistical_measure)
  else
    match get_monitoring_Status env.connected env.hostRow with
    | .error e => .error e
    | .ok monitoring_status =>
      match get_item_detail env.connected env.itemRows with
      | .error e => .error e
      | .ok none =>
        .ok (_error_response ("Item " ++ metric_name ++ " not found for host " ++ hostname)
          hostname metric_name "unknown" statistical_measure)
      | .ok (some item_details) =>
        if monitoring_status = MonStatus.code 1 then
          .ok (_error_response ("Host " ++ hostname ++ " is disabled")
            hostname metric_name "unknown" none)
        else if item_details.status ≠ 0 then
          .ok (_error_response ("Item " ++ metric_name ++ " is disabled")
            hostname metric_name item_details.units none)
        else
          match item_details.history_table_name with
          | none =>
            .ok (_error_response ("No valid history table for item " ++ metric_name
                ++ " with value_type " ++ toString item_details.value_type)
              hostname metric_name item_details.units statistical_measure)
          | some history_table =>
            let function_name :=
              if ¬ (history_table = "history_str" ∨ history_table = "history_log"
                    ∨ history_table = "history_text") then
                get_function_name now time_from time_to
                  (convert_day item_details.history) (convert_day item_details.trends)
              else "get_history"
            let stat :=
              if ¬ (history_table = "history_str" ∨ history_table = "history_log"
                    ∨ history_table = "history_text") then statistical_measure
              else
                if statistical_measure = some "last" then statistical_measure else none
            if optTruthy stat ∧ ¬ ((stat.getD "") ∈ validStats) then
              .ok (_error_response ("Invalid statistical measure: " ++ stat.getD "")
                hostname metric_name item_details.units stat)
            else if function_name = "get_history" then
              match get_history_data env.connected env.historyFetch history_table stat with
              | .error e => .error e
              | .ok d =>
                .ok (_success_response (some (.data d)) (some hostname)
                  (some metric_name) (some item_details.units) stat)
            else if function_name = "get_trends" then
              match get_trend_data env.connected env.trendFetch
                  item_details.trends_table_name stat with
              | .error e => .error e
              | .ok d =>
                .ok (_success_response (some (.data d)) (some hostname)
                  (some metric_name) (some item_details.units) stat)
            else .error (.keyError function_name)

/-- Truthiness of a `data` value (`[]`, `0`, `0.0` and `""` are falsy,
a `RuntimeError` object is truthy). -/
def dataValTruthy : DataVal → Bool
  | .rows l => l ≠ []
  | .num q => q ≠ 0
  | .sqrtNum q => q ≠ 0
  | .str s => s ≠ ""
  | .runtimeError _ => true

/-- `metric_data.get(k)` when a string is expected. -/
def respGetStr (r : Resp) (k : String) : Option String :=
  match respGet r k with
  | some (RVal.str s) => some s
  | _ => none

/-- The rows `get_host_by_metric` appends for one resolved response: a
nonempty list of sample dicts is expanded one row per sample, anything
else yields a single row with a null clock and `data_points if
data_points else None` as value. -/
def rowsFromResponse (md : Resp) : List HostMetricRow :=
  match respGet md "data" with
  | some (RVal.data (DataVal.rows (p :: ps))) =>
    (p :: ps).map (fun point =>
      { hostname := respGetStr md "hostname", unit := respGetStr md "unit",
        clock := some point.clock, value := some (DataVal.num point.value) })
  | dp =>
    [{ hostname := respGetStr md "hostname", unit := respGetStr md "unit",
       clock := none,
       value :=
         match dp with
         | some (RVal.data dv) => if dataValTruthy dv then some dv else none
         | _ => none }]

/-- Sort key of a numeric cell: `q x` is the float `x`, `root x` is the
float `Real.sqrt x` (a `statistics.stdev` result, whose argument is a
nonnegative variance; negative arguments are clamped to keep the order
total). -/
inductive NumKey where
  | q (x : Rat)
  | root (x : Rat)
deriving DecidableEq, Repr

/-- Comparison of two numeric sort keys, deciding `x ≤ y` on the real
numbers they denote (square roots are compared through squares). -/
def numKeyLe : NumKey → NumKey → Bool
  | .q x, .q y => x ≤ y
  | .q x, .root y => x ≤ 0 ∨ x ^ 2 ≤ max y 0
  | .root x, .q y => 0 ≤ y ∧ max x 0 ≤ y ^ 2
  | .root x, .root y => max x 0 ≤ max y 0

/-- Classify a cell for sorting: numeric cells get a key, non-numeric
cells (which make the pandas comparison raise and never survive the
sortability guard) get a rank. -/
def dvKey : DataVal → NumKey ⊕ Nat
  | .num x => .inl (.q x)
  | .sqrtNum x => .inl (.root x)
  | .str _ => .inr 1
  | .runtimeError _ => .inr 2
  | .rows _ => .inr 3

/-- Total preorder on data values used by the value sort. -/
def dvLe (a b : DataVal) : Bool :=
  match dvKey a, dvKey b with
  | .inl k, .inl k₂ => numKeyLe k k₂
  | .inl _, .inr _ => true
  | .inr _, .inl _ => false
  | .inr r, .inr r₂ => r ≤ r₂

/-- `sort_values(by=value, ascending=False, na_position=last)` as a
pairwise order: descending by value, null cells last. -/
def rowSortLe (a b : HostMetricRow) : Bool :=
  match a.value, b.value with
  | none, none => true
  | none, some _ => false
  | some _, none => true
  | some av, some bv => dvLe bv av

/-- A cell pandas can order in a numeric column (null, a number, or a
stdev float). -/
def cellSortable : Option DataVal → Bool
  | none => true
  | some (DataVal.num _) => true
  | some (DataVal.sqrtNum _) => true
  | some _ => false

/-- The relation `rowSortLe` as a `Prop`, the order of the value sort. -/
def RowOrder (a b : HostMetricRow) : Prop := rowSortLe a b = true

instance : DecidableRel RowOrder := fun a b => by
  unfold RowOrder; infer_instance

/-- The DataFrame sort of `get_host_by_metric`: comparing non-numeric
cells raises `TypeError`, otherwise sort descending with nulls last
(pandas `sort_values` is modelled as a stable sort by that order). -/
def sortRows (rows : List HostMetricRow) : Except PyExc (List HostMetricRow) :=
  if rows.all (fun r => cellSortable r.value) then
    .ok (List.insertionSort RowOrder rows)
  else .error (.typeError "unorderable value column")

/-- Database state seen by one `get_host_by_metric` call: the cross-host
item query plus the per-host state used by each nested `get_metric_data`
call. -/
structure MultiEnv where
  connected : Bool
  allItemRows : DbFetch (List ItemRow)
  perHost : String → Env

/-- The per-host resolution loop of `get_host_by_metric` (`if
metric_data:` is always true: responses are nonempty dicts). -/
def collectRows (now : Rat) (menv : MultiEnv) (metric_name : String)
    (statistical_measure : Option String) (time_from time_to : Int) :
    List String → Except PyExc (List HostMetricRow)
  | [] => .ok []
  | h :: hs =>
    match get_metric_data now (menv.perHost h) h metric_name time_from time_to
        statistical_measure with
    | .error e => .error e
    | .ok md =>
      match collectRows now menv metric_name statistical_measure time_from time_to hs with
      | .error e => .error e
      | .ok rest => .ok (rowsFromResponse md ++ rest)

/-- Result of `get_host_by_metric`: the early return of an empty
DataFrame when no item matches, or a response dict. -/
inductive HBMResult where
  | emptyFrame
  | resp (r : Resp)
deriving DecidableEq, Repr

/-- `ZabbixDB.get_host_by_metric`.  Note the source applies `rows[:limit]`
BEFORE building and sorting the DataFrame.  The set-based hostname
deduplication is modelled as order-preserving `dedup`; time bounds are
modelled as given integers (passing `None` bounds raises `TypeError`
upstream and is outside this model). -/
def get_host_by_metric (now : Rat) (menv : MultiEnv) (metric_name : String)
    (statistical_measure : Option String) (time_from time_to : Int)
    (limit : Option Nat) : Except PyExc HBMResult :=
  match get_item_detail_all menv.connected menv.allItemRows with
  | .error e => .error e
  | .ok none => .ok .emptyFrame
  | .ok (some item_details) =>
    let hostnames := (item_details.map (fun i => i.hostname)).dedup
    match collectRows now menv metric_name statistical_measure time_from time_to
        hostnames with
    | .error e => .error e
    | .ok rows0 =>
      let rows := match limit with | some n => rows0.take n | none => rows0
      match sortRows rows with
      | .error e => .error e
      | .ok sorted =>
        .ok (.resp (_success_response (some (.rowRecords sorted)) none
          (some metric_name) none none))

/-! Concrete database states used to evaluate the embedded functions. -/

/-- An enabled numeric item (`value_type` 0) with 7-day history and
365-day trends retention. -/
def itemRowNum : ItemRow :=
  { itemid := 1, hostid := 1, name := "m", history := "7d", trends := "365d",
    value_type := 0, status := 0, units := "%", host := "h1" }

/-- The same item, administratively disabled (`status` 1). -/
def itemRowDisabled : ItemRow :=
  { itemid := 1, hostid := 1, name := "m", history := "7d", trends := "365d",
    value_type := 1, status := 1, units := "%", host := "h1" }

/-- A string item (`value_type` 1, history table `history_str`). -/
def itemRowStr : ItemRow :=
  { itemid := 1, hostid := 1, name := "m", history := "7d", trends := "365d",
    value_type := 1, status := 0, units := "", host := "h1" }

/-- Healthy state for the numeric item with an empty fetch result. -/
def envTooOld : Env :=
  { connected := true, hostRow := DbFetch.rows (some 0),
    itemRows := DbFetch.rows [itemRowNum],
    historyFetch := DbFetch.rows [], trendFetch := fun _ => DbFetch.rows [] }

/-- State in which the item-detail query hits a driver fault. -/
def envItemFault : Env :=
  { connected := true, hostRow := DbFetch.rows (some 0),
    itemRows := DbFetch.dbError "connection lost",
    historyFetch := DbFetch.rows [], trendFetch := fun _ => DbFetch.rows [] }

/-- Healthy state with three history samples (values 1, 5, 10 in fetch
order). -/
def envHist : Env :=
  { connected := true, hostRow := DbFetch.rows (some 0),
    itemRows := DbFetch.rows [itemRowNum],
    historyFetch := DbFetch.rows [⟨30, 1⟩, ⟨20, 5⟩, ⟨10, 10⟩],
    trendFetch := fun _ => DbFetch.rows [] }

/-- Cross-host state for the three-sample history scenario. -/
def menvHist : MultiEnv :=
  { connected := true, allItemRows := DbFetch.rows [itemRowNum],
    perHost := fun _ => envHist }

/-- State for the disabled item. -/
def envDis : Env :=
  { connected := true, hostRow := DbFetch.rows (some 0),
    itemRows := DbFetch.rows [itemRowDisabled],
    historyFetch := DbFetch.rows [], trendFetch := fun _ => DbFetch.rows [] }

/-- Cross-host state for the disabled item. -/
def menvDis : MultiEnv :=
  { connected := true, allItemRows := DbFetch.rows [itemRowDisabled],
    perHost := fun _ => envDis }

/-- State for the string item with two history samples. -/
def envStr : Env :=
  { connected := true, hostRow := DbFetch.rows (some 0),
    itemRows := DbFetch.rows [itemRowStr],
    historyFetch := DbFetch.rows [⟨30, 1⟩, ⟨20, 5⟩],
    trendFetch := fun _ => DbFetch.rows [] }

/-- The operation names recognised by `compute_statistic` (the `elif`
chain). -/
def recognizedOps : List String :=
  ["min", "max", "last", "mean", "avg", "median", "stdev", "sum", "count",
   "range", "mad"]

/-! Helper lemmas about the fold-based minimum and maximum. -/

theorem foldl_min_mem (xs : List Rat) (x : Rat) : xs.foldl min x ∈ x :: xs := by
  induction xs generalizing x with
  | nil => simp
  | cons y ys ih =>
    have h := ih (min x y)
    rw [List.foldl_cons]
    rcases List.mem_cons.mp h with h | h
    · rcases min_choice x y with h2 | h2
      · exact List.mem_cons.mpr (Or.inl (h.trans h2))
      · exact List.mem_cons.mpr (Or.inr (List.mem_cons.mpr (Or.inl (h.trans h2))))
    · exact List.mem_cons.mpr (Or.inr (List.mem_cons.mpr (Or.inr h)))

theorem foldl_min_le_init (xs : List Rat) (x : Rat) : xs.foldl min x ≤ x := by
  induction xs generalizing x with
  | nil => simp
  | cons y ys ih =>
    rw [List.foldl_cons]
    exact le_trans (ih (min x y)) (min_le_left x y)

theorem foldl_min_le_mem (xs : List Rat) (x : Rat) : ∀ y ∈ xs, xs.foldl min x ≤ y := by
  induction xs generalizing x with
  | nil => simp
  | cons z zs ih =>
    intro y hy
    rw [List.foldl_cons]
    rcases List.mem_cons.mp hy with h | h
    · subst h
      exact le_trans (foldl_min_le_init zs (min x y)) (min_le_right x y)
    · exact ih (min x z) y h

theorem foldl_max_mem (xs : List Rat) (x : Rat) : xs.foldl max x ∈ x :: xs := by
  induction xs generalizing x with
  | nil => simp
  | cons y ys ih =>
    have h := ih (max x y)
    rw [List.foldl_cons]
    rcases List.mem_cons.mp h with h | h
    · rcases max_choice x y with h2 | h2
      · exact List.mem_cons.mpr (Or.inl (h.trans h2))
      · exact List.mem_cons.mpr (Or.inr (List.mem_cons.mpr (Or.inl (h.trans h2))))
    · exact List.mem_cons.mpr (Or.inr (List.mem_cons.mpr (Or.inr h)))

theorem foldl_max_ge_init (xs : List Rat) (x : Rat) : x ≤ xs.foldl max x := by
  induction xs generalizing x with
  | nil => simp
  | cons y ys ih =>
    rw [List.foldl_cons]
    exact le_trans (le_max_left x y) (ih (max x y))

theorem foldl_max_ge_mem (xs : List Rat) (x : Rat) : ∀ y ∈ xs, y ≤ xs.foldl max x := by
  induction xs generalizing x with
  | nil => simp
  | cons z zs ih =>
    intro y hy
    rw [List.foldl_cons]
    rcases List.mem_cons.mp hy with h | h
    · subst h
      exact le_trans (le_max_right x y) (foldl_max_ge_init zs (max x y))
    · exact ih (max x z) y h

theorem listMinD_mem (l : List Rat) (h : l ≠ []) : listMinD l ∈ l := by
  cases l with
  | nil => exact absurd rfl h
  | cons x xs => exact foldl_min_mem xs x

theorem listMinD_le (l : List Rat) : ∀ y ∈ l, listMinD l ≤ y := by
  cases l with
  | nil => simp
  | cons x xs =>
    intro y hy
    rcases List.mem_cons.mp hy with h | h
    · subst h; exact foldl_min_le_init xs y
    · exact foldl_min_le_mem xs x y h

theorem listMaxD_mem (l : List Rat) (h : l ≠ []) : listMaxD l ∈ l := by
  cases l with
  | nil => exact absurd rfl h
  | cons x xs => exact foldl_max_mem xs x

theorem listMaxD_ge (l : List Rat) : ∀ y ∈ l, y ≤ listMaxD l := by
  cases l with
  | nil => simp
  | cons x xs =>
    intro y hy
    rcases List.mem_cons.mp hy with h | h
    · subst h; exact foldl_max_ge_init xs y
    · exact foldl_max_ge_mem xs x y h


/-! Helper facts about concrete characters and durations, used to
evaluate the embedded functions on concrete inputs. -/

theorem charFacts :
    Char.toLower 'd' = 'd' ∧ Char.toLower '7' = '7' ∧ Char.toLower '3' = '3' ∧
    Char.toLower '6' = '6' ∧ Char.toLower '5' = '5' ∧
    Char.isDigit '7' = true ∧ Char.isDigit '3' = true ∧ Char.isDigit '6' = true ∧
    Char.isDigit '5' = true ∧ Char.isDigit 'd' = false ∧
    '7'.toNat - 48 = 7 ∧ '3'.toNat - 48 = 3 ∧ '6'.toNat - 48 = 6 ∧
    '5'.toNat - 48 = 5 := by decide

theorem convert_day_7d : convert_day "7d" = 7 := by
  norm_num [convert_day, scanDurationTokens, round2, pyRound,
    charFacts.1, charFacts.2.1, charFacts.2.2.2.2.2.1,
    charFacts.2.2.2.2.2.2.2.2.2.1, charFacts.2.2.2.2.2.2.2.2.2.2.1]

theorem convert_day_365d : convert_day "365d" = 365 := by
  norm_num [convert_day, scanDurationTokens, round2, pyRound, charFacts.1,
    charFacts.2.2.1, charFacts.2.2.2.1, charFacts.2.2.2.2.1,
    charFacts.2.2.2.2.2.2.1, charFacts.2.2.2.2.2.2.2.1,
    charFacts.2.2.2.2.2.2.2.2.1, charFacts.2.2.2.2.2.2.2.2.2.1,
    charFacts.2.2.2.2.2.2.2.2.2.2.2.1, charFacts.2.2.2.2.2.2.2.2.2.2.2.2.1,
    charFacts.2.2.2.2.2.2.2.2.2.2.2.2.2]

/-- C1 (amended): for a non-empty sample sequence whose values are fixed
by two-decimal rounding, `compute_statistic` with `min`/`max` returns a
non-empty subset of the input whose value equals the extremal value, with
exactly as many elements as there are samples tied at that extremum.  (On
inputs with values not fixed by rounding the source compares raw values
against the rounded extremum and can return the empty list, see the
counterexample.) -/
theorem compute_statistic_min_max_ties (data : List Sample) (hne : data ≠ [])
    (hfix : ∀ s ∈ data, round2 s.value = s.value) :
    (∃ l, compute_statistic data "min" = .ok (.rows l) ∧ l ≠ [] ∧
      (∀ s ∈ l, s ∈ data ∧ s.value = listMinD (data.map (fun s => s.value))) ∧
      l.length = data.countP (fun s => s.value = listMinD (data.map (fun s => s.value)))) ∧
    (∃ l, compute_statistic data "max" = .ok (.rows l) ∧ l ≠ [] ∧
      (∀ s ∈ l, s ∈ data ∧ s.value = listMaxD (data.map (fun s => s.value))) ∧
      l.length = data.countP (fun s => s.value = listMaxD (data.map (fun s => s.value)))) := by
  have hmap : data.map (fun s => round2 s.value) = data.map (fun s => s.value) :=
    List.map_congr_left hfix
  have hmapne : data.map (fun s => s.value) ≠ [] := by
    intro h
    exact hne (List.map_eq_nil_iff.mp h)
  constructor
  · refine ⟨data.filter (fun s => s.value = listMinD (data.map (fun s => s.value))),
      ?_, ?_, ?_, ?_⟩
    · simp [compute_statistic, hne, hmap]
    · obtain ⟨s, hs, hv⟩ := List.mem_map.mp (listMinD_mem _ hmapne)
      exact List.ne_nil_of_mem (List.mem_filter.mpr ⟨hs, by simp [hv]⟩)
    · intro s hs
      have h := List.mem_filter.mp hs
      exact ⟨h.1, by simpa using h.2⟩
    · exact (List.countP_eq_length_filter _ _).symm
  · refine ⟨data.filter (fun s => s.value = listMaxD (data.map (fun s => s.value))),
      ?_, ?_, ?_, ?_⟩
    · simp [compute_statistic, hne, hmap]
    · obtain ⟨s, hs, hv⟩ := List.mem_map.mp (listMaxD_mem _ hmapne)
      exact List.ne_nil_of_mem (List.mem_filter.mpr ⟨hs, by simp [hv]⟩)
    · intro s hs
      have h := List.mem_filter.mp hs
      exact ⟨h.1, by simpa using h.2⟩
    · exact (List.countP_eq_length_filter _ _).symm

/-- Witness for C1: applying the theorem to the concrete sequence with
values 1, 2, 1 (all fixed by rounding). -/
theorem compute_statistic_min_max_ties_witness :
    (∃ l, compute_statistic [⟨0, 1⟩, ⟨1, 2⟩, ⟨2, 1⟩] "min" = .ok (.rows l) ∧ l ≠ [] ∧
      (∀ s ∈ l, s ∈ [(⟨0, 1⟩ : Sample), ⟨1, 2⟩, ⟨2, 1⟩] ∧
        s.value = listMinD (([(⟨0, 1⟩ : Sample), ⟨1, 2⟩, ⟨2, 1⟩]).map (fun s => s.value))) ∧
      l.length = ([(⟨0, 1⟩ : Sample), ⟨1, 2⟩, ⟨2, 1⟩]).countP
        (fun s => s.value = listMinD (([(⟨0, 1⟩ : Sample), ⟨1, 2⟩, ⟨2, 1⟩]).map (fun s => s.value)))) ∧
    (∃ l, compute_statistic [⟨0, 1⟩, ⟨1, 2⟩, ⟨2, 1⟩] "max" = .ok (.rows l) ∧ l ≠ [] ∧
      (∀ s ∈ l, s ∈ [(⟨0, 1⟩ : Sample), ⟨1, 2⟩, ⟨2, 1⟩] ∧
        s.value = listMaxD (([(⟨0, 1⟩ : Sample), ⟨1, 2⟩, ⟨2, 1⟩]).map (fun s => s.value))) ∧
      l.length = ([(⟨0, 1⟩ : Sample), ⟨1, 2⟩, ⟨2, 1⟩]).countP
        (fun s => s.value = listMaxD (([(⟨0, 1⟩ : Sample), ⟨1, 2⟩, ⟨2, 1⟩]).map (fun s => s.value)))) :=
  compute_statistic_min_max_ties [⟨0, 1⟩, ⟨1, 2⟩, ⟨2, 1⟩] (by decide)
    (by
      intro s hs
      simp only [List.mem_cons, List.not_mem_nil, or_false] at hs
      rcases hs with rfl | rfl | rfl <;> norm_num [round2, pyRound])

/-- Counterexample for C1 as stated: on the single sample with value
2.004 the source rounds the value to 2.0 when computing the minimum but
filters the raw values, so `min` returns the EMPTY list instead of a
non-empty set of extremal samples. -/
theorem compute_statistic_min_round_mismatch_cex :
    compute_statistic [⟨0, (2004 : Rat) / 1000⟩] "min" = .ok (.rows []) := by
  have hf : Int.fract ((1002 : Rat) / 5) = 2 / 5 := by
    rw [Int.fract]
    norm_num
  norm_num [compute_statistic, listMinD, round2, pyRound, hf]

/-- C6 (amended): `compute_statistic([], op)` returns the empty result for
EVERY operation, including unrecognised ones, because the emptiness check
precedes the operation-name check; an unrecognised operation raises
`ValueError` exactly on non-empty input. -/
theorem compute_statistic_empty_before_op_check (op : String) (data : List Sample) :
    compute_statistic [] op = .ok (.rows []) ∧
    (data ≠ [] → op ∉ recognizedOps →
      compute_statistic data op = .error (.valueError ("Unsupported operation: " ++ op))) := by
  constructor
  · simp [compute_statistic]
  · intro hne hop
    simp only [recognizedOps, List.mem_cons, List.not_mem_nil, or_false, not_or] at hop
    obtain ⟨h1, h2, h3, h4, h5, h6, h7, h8, h9, h10, h11⟩ := hop
    simp [compute_statistic, hne, h1, h2, h3, h4, h5, h6, h7, h8, h9, h10, h11]

/-- Witness for C6: the unrecognised operation `bogus` raises on a
non-empty input and yields the empty result on the empty input. -/
theorem compute_statistic_empty_before_op_check_witness :
    compute_statistic [] "bogus" = .ok (.rows []) ∧
    ([(⟨0, 1⟩ : Sample)] ≠ [] → "bogus" ∉ recognizedOps →
      compute_statistic [⟨0, 1⟩] "bogus" =
        .error (.valueError ("Unsupported operation: " ++ "bogus"))) :=
  compute_statistic_empty_before_op_check "bogus" [⟨0, 1⟩]

/-- Counterexample for C6 as stated: an unrecognised operation on the
EMPTY sequence returns the empty result instead of raising, so the
operation-name check is NOT made before the emptiness check. -/
theorem compute_statistic_unsupported_on_empty_cex :
    compute_statistic [] "bogus" = .ok (.rows []) := by
  simp [compute_statistic]

/-- C7 (amended): `compute_statistic(s, stdev)` raises the
insufficient-samples error iff `s` has EXACTLY one sample (the empty
sequence short-circuits to the empty result before `statistics.stdev` is
reached); for two or more samples it returns the square root (`sqrtNum`)
of the sample variance with the `n - 1` divisor over the rounded
values. -/
theorem compute_statistic_stdev_spec (data : List Sample) :
    ((∃ e, compute_statistic data "stdev" = .error e) ↔ data.length = 1) ∧
    (2 ≤ data.length →
      compute_statistic data "stdev" =
        .ok (.sqrtNum (sampleVariance (data.map (fun s => round2 s.value))))) := by
  match data with
  | [] =>
    have h0 : compute_statistic [] "stdev" = .ok (.rows []) := by
      simp [compute_statistic]
    constructor
    · constructor
      · rintro ⟨e, he⟩
        rw [h0] at he
        exact Except.noConfusion he
      · intro h
        simp at h
    · intro h
      simp at h
  | [a] =>
    have h1 : compute_statistic [a] "stdev" =
        .error (.statisticsError "stdev requires at least two data points") := by
      simp [compute_statistic]
    constructor
    · constructor
      · intro _
        rfl
      · intro _
        exact ⟨.statisticsError "stdev requires at least two data points", h1⟩
    · intro h
      simp at h
  | a :: b :: tl =>
    have hok : compute_statistic (a :: b :: tl) "stdev" =
        .ok (.sqrtNum (sampleVariance ((a :: b :: tl).map (fun s => round2 s.value)))) := by
      simp [compute_statistic]
    constructor
    · constructor
      · rintro ⟨e, he⟩
        rw [hok] at he
        exact Except.noConfusion he
      · intro h
        simp at h
    · intro _
      exact hok

/-- Witness for C7: two samples with values 1 and 3 give standard
deviation `Real.sqrt 2` (sample variance 2). -/
theorem compute_statistic_stdev_spec_witness :
    compute_statistic [⟨0, 1⟩, ⟨1, 3⟩] "stdev" =
      .ok (.sqrtNum (sampleVariance (([(⟨0, 1⟩ : Sample), ⟨1, 3⟩]).map
        (fun s => round2 s.value)))) :=
  (compute_statistic_stdev_spec [⟨0, 1⟩, ⟨1, 3⟩]).2 (by decide)

/-- Counterexample for C7 as stated: the EMPTY sequence has fewer than two
samples yet `stdev` returns the empty result, not the
insufficient-samples error. -/
theorem compute_statistic_stdev_empty_cex :
    compute_statistic [] "stdev" = .ok (.rows []) := by
  simp [compute_statistic]

/-- C8: under `time_from ≤ time_to` the routing classification follows the
decision order of the source: too-old first, then entirely-within-history,
then entirely-between-the-cutoffs, then straddling-the-history-cutoff,
otherwise invalid range. -/
theorem get_function_name_decision_order (now : Rat) (time_from time_to : Int)
    (history_days trends_days : Rat) (h : time_from ≤ time_to) :
    (time_to < trendsThreshold now trends_days →
      get_function_name now time_from time_to history_days trends_days = "No data - too old") ∧
    (trendsThreshold now trends_days ≤ time_to →
      historyThreshold now history_days ≤ time_from →
      get_function_name now time_from time_to history_days trends_days = "get_history") ∧
    (trendsThreshold now trends_days ≤ time_to →
      time_from < historyThreshold now history_days →
      time_to ≤ historyThreshold now history_days →
      trendsThreshold now trends_days ≤ time_from →
      get_function_name now time_from time_to history_days trends_days = "get_trends") ∧
    (trendsThreshold now trends_days ≤ time_to →
      time_from < historyThreshold now history_days →
      ¬ (time_to ≤ historyThreshold now history_days ∧
         trendsThreshold now trends_days ≤ time_from) →
      historyThreshold now history_days ≤ time_to →
      get_function_name now time_from time_to history_days trends_days = "get_trends") ∧
    (trendsThreshold now trends_days ≤ time_to →
      time_from < historyThreshold now history_days →
      ¬ (time_to ≤ historyThreshold now history_days ∧
         trendsThreshold now trends_days ≤ time_from) →
      time_to < historyThreshold now history_days →
      get_function_name now time_from time_to history_days trends_days = "Invalid range") := by
  refine ⟨?_, ?_, ?_, ?_, ?_⟩
  · intro h1
    simp only [get_function_name]
    rw [if_pos h1]
  · intro h1 h2
    simp only [get_function_name]
    rw [if_neg (by omega), if_pos (by omega)]
  · intro h1 h2 h3 h4
    simp only [get_function_name]
    rw [if_neg (by omega), if_neg (by omega), if_pos (by omega)]
  · intro h1 h2 h3 h4
    simp only [get_function_name]
    rw [if_neg (by omega), if_neg (by omega), if_neg (by omega), if_pos (by omega)]
  · intro h1 h2 h3 h4
    simp only [get_function_name]
    rw [if_neg (by omega), if_neg (by omega), if_neg (by omega), if_neg (by omega)]

/-- Witness for C8: the four example windows of the specification, for
`now = 1000000`, 7-day history retention and 365-day trends retention. -/
theorem get_function_name_decision_order_witness :
    get_function_name 1000000 999000 999500 7 365 = "get_history" ∧
    get_function_name 1000000 (-31000000) (-30600000) 7 365 = "No data - too old" ∧
    get_function_name 1000000 0 100 7 365 = "get_trends" ∧
    get_function_name 1000000 395000 395300 7 365 = "get_trends" := by
  have hH : historyThreshold 1000000 7 = 395200 := by
    norm_num [historyThreshold, pyTruncInt]
  have hT : trendsThreshold 1000000 365 = -30536000 := by
    norm_num [trendsThreshold, pyTruncInt]
  refine ⟨?_, ?_, ?_, ?_⟩
  · exact (get_function_name_decision_order 1000000 999000 999500 7 365 (by decide)).2.1
      (by rw [hT]; decide) (by rw [hH]; decide)
  · exact (get_function_name_decision_order 1000000 (-31000000) (-30600000) 7 365
      (by decide)).1 (by rw [hT]; decide)
  · exact (get_function_name_decision_order 1000000 0 100 7 365 (by decide)).2.2.1
      (by rw [hT]; decide) (by rw [hH]; decide) (by rw [hH]; decide) (by rw [hT]; decide)
  · exact (get_function_name_decision_order 1000000 395000 395300 7 365 (by decide)).2.2.2.1
      (by rw [hT]; decide) (by rw [hH]; decide) (by rw [hH, hT]; decide) (by rw [hH]; decide)

/-- C2 (the code contradicts it): when `get_function_name` classifies the
window as too old or invalid, `get_metric_data` does NOT return an empty
success response: the fetch-dispatch dict has entries only for
`get_history` and `get_trends`, so an uncaught `KeyError` escapes to the
caller. -/
theorem too_old_and_invalid_range_raise_keyerror :
    get_metric_data 1000000000 envTooOld "h1" "m" 100 200 none =
      .error (.keyError "No data - too old") ∧
    get_metric_data 1000000 envTooOld "h1" "m" (-31000000) 0 none =
      .error (.keyError "Invalid range") := by
  constructor
  · norm_num [get_metric_data, envTooOld, itemRowNum, get_monitoring_Status,
      get_item_detail, map_item, historyTableName, trendsTableName,
      convert_day_7d, convert_day_365d, pyTruncInt, historyThreshold,
      trendsThreshold, get_function_name, validStats, optTruthy, Except.map]
    decide
  · norm_num [get_metric_data, envTooOld, itemRowNum, get_monitoring_Status,
      get_item_detail, map_item, historyTableName, trendsTableName,
      convert_day_7d, convert_day_365d, pyTruncInt, historyThreshold,
      trendsThreshold, get_function_name, validStats, optTruthy, Except.map]
    decide

/-- C3 (the code contradicts it): a driver fault during the item-detail
lookup escapes `get_metric_data` as a raised `RuntimeError` whose message
does not begin with the `Query failed:` prefix — the caller receives an
exception, not a failure response. -/
theorem item_lookup_fault_escapes :
    get_metric_data 1000000 envItemFault "h1" "m" 0 1 none =
      .error (.runtimeError "Failed to fetch item details: connection lost") := by
  norm_num [get_metric_data, envItemFault, get_monitoring_Status, get_item_detail]
  decide

/-! Lookup lemmas for the two response shapes. -/

theorem error_response_get (m hn mn u : String) (st : Option String) :
    respGet (_error_response m hn mn u st) "status" = some (.str "error") ∧
    respGet (_error_response m hn mn u st) "data" = some (.data (.rows [])) ∧
    respGet (_error_response m hn mn u st) "hostname" = some (.str hn) ∧
    respGet (_error_response m hn mn u st) "unit" = some (.str u) := by
  refine ⟨rfl, rfl, rfl, rfl⟩

theorem success_response_get (d : RVal) (hn mn u : String) (st : Option String) :
    respGet (_success_response (some d) (some hn) (some mn) (some u) st) "status"
      = some (.str "success") ∧
    respGet (_success_response (some d) (some hn) (some mn) (some u) st) "data" = some d ∧
    respGet (_success_response (some d) (some hn) (some mn) (some u) st)
      "statistical_measure" = st.map RVal.str := by
  cases st <;> exact ⟨rfl, rfl, rfl⟩

theorem success_response_no_null (d : RVal) (hn mn u : String) (st : Option String)
    (hd : d ≠ RVal.null) :
    ∀ k v, (k, v) ∈ _success_response (some d) (some hn) (some mn) (some u) st →
      v ≠ RVal.null := by
  intro k v hv
  cases st with
  | none =>
    simp [_success_response] at hv
    rcases hv with ⟨_, rfl⟩ | ⟨_, rfl⟩ | ⟨_, rfl⟩ | ⟨_, rfl⟩ | ⟨_, rfl⟩ <;> simp [hd]
  | some s =>
    simp [_success_response] at hv
    rcases hv with ⟨_, rfl⟩ | ⟨_, rfl⟩ | ⟨_, rfl⟩ | ⟨_, rfl⟩ | ⟨_, rfl⟩ | ⟨_, rfl⟩ <;>
      simp [hd]

/-- Inversion for a successful single-item lookup: the item dict is the
mapped first row of the query result. -/
theorem get_item_detail_ok_some {connected : Bool} {itemRows : DbFetch (List ItemRow)}
    {item : ItemDetails}
    (h : get_item_detail connected itemRows = .ok (some item)) :
    ∃ r0 rest, connected = true ∧ itemRows = DbFetch.rows (r0 :: rest) ∧
      r0.value_type ∈ [0, 1, 2, 3, 4] ∧
      item = { hostname := r0.host, itemid := r0.itemid, hostid := r0.hostid,
               name := r0.name, history := r0.history, trends := r0.trends,
               value_type := r0.value_type, status := r0.status, units := r0.units,
               history_table_name := historyTableName r0.value_type,
               trends_table_name := trendsTableName r0.value_type } := by
  cases connected with
  | false => simp [get_item_detail] at h
  | true =>
    cases itemRows with
    | dbError e => simp [get_item_detail] at h
    | rows rs =>
      cases rs with
      | nil => simp [get_item_detail] at h
      | cons r0 rest =>
        have h2 : (map_item r0).map some = .ok (some item) := by
          simpa [get_item_detail] using h
        cases hm : map_item r0 with
        | error e =>
          rw [hm] at h2
          simp [Except.map] at h2
        | ok it =>
          rw [hm] at h2
          simp only [Except.map] at h2
          have hit : it = item := Option.some.inj (Except.ok.inj h2)
          rw [map_item] at hm
          split at hm
          · refine ⟨r0, rest, rfl, rfl, by assumption, ?_⟩
            rw [← hit]
            exact (Except.ok.inj hm).symm
          · exact absurd hm (by simp)

/-- Every normally-returned response of `get_metric_data` is either an
error response for the requested host and metric, or a success response
wrapping some data, the item unit, and exactly the statistic left after
the non-numeric dropping rule. -/
theorem get_metric_data_ok_shape (now : Rat) (env : Env) (hostname metric_name : String)
    (tf tt : Int) (st : Option String) (r : Resp)
    (h : get_metric_data now env hostname metric_name tf tt st = .ok r) :
    (∃ m u st2, r = _error_response m hostname metric_name u st2) ∨
    (∃ d u, r = _success_response (some (.data d)) (some hostname) (some metric_name)
      (some u) (droppedStat env st)) := by
  simp only [get_metric_data] at h
  split at h
  · exact Or.inl ⟨_, _, _, (Except.ok.inj h).symm⟩
  · split at h
    · exact absurd h (by simp)
    · split at h
      · exact absurd h (by simp)
      · exact Or.inl ⟨_, _, _, (Except.ok.inj h).symm⟩
      · rename_i item_details heqitem
        split at h
        · exact Or.inl ⟨_, _, _, (Except.ok.inj h).symm⟩
        · split at h
          · exact Or.inl ⟨_, _, _, (Except.ok.inj h).symm⟩
          · split at h
            · exact Or.inl ⟨_, _, _, (Except.ok.inj h).symm⟩
            · rename_i ht heqtable
              obtain ⟨r0, rest, hconn, hrows, hvt, hitem⟩ := get_item_detail_ok_some heqitem
              have hht : historyTableName r0.value_type = some ht := by
                rw [hitem] at heqtable
                exact heqtable
              by_cases hc : ht = "history_str" ∨ ht = "history_log" ∨ ht = "history_text"
              · rw [if_neg (not_not_intro hc), if_neg (not_not_intro hc)] at h
                have hdrop : (if st = some "last" then st else none) = droppedStat env st := by
                  simp [droppedStat, hrows, hht, hc]
                rw [hdrop] at h
                split at h
                · exact Or.inl ⟨_, _, _, (Except.ok.inj h).symm⟩
                · rw [if_pos rfl] at h
                  split at h
                  · exact Except.noConfusion h
                  · exact Or.inr ⟨_, _, (Except.ok.inj h).symm⟩
              · rw [if_pos hc, if_pos hc] at h
                have hdrop : st = droppedStat env st := by
                  simp [droppedStat, hrows, hht, hc]
                rw [hdrop] at h
                split at h
                · exact Or.inl ⟨_, _, _, (Except.ok.inj h).symm⟩
                · split at h
                  · split at h
                    · exact Except.noConfusion h
                    · exact Or.inr ⟨_, _, (Except.ok.inj h).symm⟩
                  · split at h
                    · split at h
                      · exact Except.noConfusion h
                      · exact Or.inr ⟨_, _, (Except.ok.inj h).symm⟩
                    · exact Except.noConfusion h

/-- C10: every success response built by `get_metric_data` omits all
fields whose value is null; the `status` and `data` keys are always
present, and `statistical_measure` is present exactly when a statistic
survived the non-numeric dropping rule. -/
theorem success_response_key_policy (now : Rat) (env : Env) (hostname metric_name : String)
    (tf tt : Int) (st : Option String) (r : Resp)
    (hok : get_metric_data now env hostname metric_name tf tt st = .ok r)
    (hsucc : respGet r "status" = some (.str "success")) :
    (∀ k v, (k, v) ∈ r → v ≠ RVal.null) ∧
    respGet r "status" = some (.str "success") ∧
    (∃ d, respGet r "data" = some (.data d)) ∧
    ((∃ v, respGet r "statistical_measure" = some v) ↔ droppedStat env st ≠ none) := by
  rcases get_metric_data_ok_shape now env hostname metric_name tf tt st r hok with
    ⟨m, u, st2, rfl⟩ | ⟨d, u, rfl⟩
  · rw [(error_response_get m hostname metric_name u st2).1] at hsucc
    simp at hsucc
  · refine ⟨?_, hsucc, ?_, ?_⟩
    · exact success_response_no_null _ _ _ _ _ (by simp)
    · exact ⟨d, (success_response_get _ _ _ _ _).2.1⟩
    · rw [(success_response_get (RVal.data d) hostname metric_name u
        (droppedStat env st)).2.2]
      cases droppedStat env st <;> simp

/-- C5 (amended): a host whose resolution returns an error response is NOT
omitted by `get_host_by_metric`; because the error response carries empty
data, it contributes exactly one row with null clock and null value. -/
theorem failed_host_contributes_null_row (now : Rat) (env : Env)
    (hostname metric_name : String) (tf tt : Int) (st : Option String) (r : Resp)
    (hok : get_metric_data now env hostname metric_name tf tt st = .ok r)
    (herr : respGet r "status" = some (.str "error")) :
    rowsFromResponse r =
      [{ hostname := some hostname, unit := respGetStr r "unit",
         clock := none, value := none }] := by
  rcases get_metric_data_ok_shape now env hostname metric_name tf tt st r hok with
    ⟨m, u, st2, rfl⟩ | ⟨d, u, rfl⟩
  · have hdata := (error_response_get m hostname metric_name u st2).2.1
    have hhost := (error_response_get m hostname metric_name u st2).2.2.1
    simp only [rowsFromResponse, hdata, respGetStr, hhost, dataValTruthy]
    simp
  · rw [(success_response_get (RVal.data d) hostname metric_name u
      (droppedStat env st)).1] at herr
    simp at herr

/-- C9: for an item whose value kind is non-numeric (string, log or text
history table), `get_metric_data` fetches raw history data only — the
result is a function of the history oracle alone, mentioning neither the
current time, the retention settings, nor the trends oracle — and any
requested statistic other than `last` is silently dropped before the
fetch rather than reported as an error. -/
theorem nonnumeric_item_uses_history_only (now : Rat) (env : Env)
    (hostname metric_name : String) (tf tt : Int) (st : Option String)
    (ms : MonStatus) (r0 : ItemRow) (rest : List ItemRow) (ht : String)
    (hrange : ¬ tt < tf)
    (hmon : get_monitoring_Status env.connected env.hostRow = .ok ms)
    (hms : ms ≠ .code 1)
    (hconn : env.connected = true)
    (hrows : env.itemRows = DbFetch.rows (r0 :: rest))
    (hvt : r0.value_type = 1 ∨ r0.value_type = 2 ∨ r0.value_type = 4)
    (hstatus : r0.status = 0)
    (hht : historyTableName r0.value_type = some ht) :
    get_metric_data now env hostname metric_name tf tt st =
      (match get_history_data true env.historyFetch ht
          (if st = some "last" then st else none) with
       | .error e => .error e
       | .ok d => .ok (_success_response (some (.data d)) (some hostname)
           (some metric_name) (some r0.units)
           (if st = some "last" then st else none))) := by
  have hvtmem : r0.value_type ∈ [0, 1, 2, 3, 4] := by
    rcases hvt with h1 | h1 | h1 <;> simp [h1]
  have hc : ht = "history_str" ∨ ht = "history_log" ∨ ht = "history_text" := by
    rcases hvt with h1 | h1 | h1 <;> rw [h1] at hht <;>
      simp only [historyTableName, Option.some.injEq] at hht <;> simp [← hht]
  have hitem : get_item_detail env.connected env.itemRows =
      .ok (some
        { hostname := r0.host, itemid := r0.itemid, hostid := r0.hostid,
          name := r0.name, history := r0.history, trends := r0.trends,
          value_type := r0.value_type, status := r0.status, units := r0.units,
          history_table_name := historyTableName r0.value_type,
          trends_table_name := trendsTableName r0.value_type }) := by
    rw [hconn, hrows]
    simp [get_item_detail, map_item, hvtmem, Except.map]
  have hval : ¬ (optTruthy (if st = some "last" then st else none) = true ∧
      ¬ ((if st = some "last" then st else none).getD "" ∈ validStats)) := by
    by_cases hlast : st = some "last" <;> simp [hlast, optTruthy, validStats]
  simp only [get_metric_data, if_neg hrange, hmon, hitem, hht]
  rw [if_neg hms]
  rw [if_neg (by simp [hstatus])]
  rw [if_neg (not_not_intro hc), if_neg (not_not_intro hc)]
  rw [if_neg hval, if_pos rfl, hconn]

/-! The value order used by the DataFrame sort is a total preorder. -/

theorem numKeyLe_trans (a b c : NumKey) (h1 : numKeyLe a b = true)
    (h2 : numKeyLe b c = true) : numKeyLe a c = true := by
  cases a with
  | q x =>
    cases b with
    | q y =>
      cases c with
      | q z =>
        simp only [numKeyLe, decide_eq_true_eq] at *
        linarith
      | root z =>
        simp only [numKeyLe, decide_eq_true_eq] at *
        rcases h2 with h2 | h2
        · exact Or.inl (by linarith)
        · by_cases hx : x ≤ 0
          · exact Or.inl hx
          · push_neg at hx
            right
            nlinarith
    | root y =>
      cases c with
      | q z =>
        simp only [numKeyLe, decide_eq_true_eq] at *
        rcases h1 with h1 | h1
        · linarith [h2.1]
        · nlinarith [h2.1, h2.2, sq_nonneg (x - z), sq_nonneg (x + z)]
      | root z =>
        simp only [numKeyLe, decide_eq_true_eq] at *
        rcases h1 with h1 | h1
        · exact Or.inl h1
        · exact Or.inr (by linarith)
  | root x =>
    cases b with
    | q y =>
      cases c with
      | q z =>
        simp only [numKeyLe, decide_eq_true_eq] at *
        refine ⟨by linarith [h1.1], ?_⟩
        nlinarith [h1.1, h1.2]
      | root z =>
        simp only [numKeyLe, decide_eq_true_eq] at *
        rcases h2 with h2 | h2
        · have hy : y = 0 := le_antisymm h2 h1.1
          have h0 : max x 0 ≤ 0 := by
            have := h1.2
            rw [hy] at this
            simpa using this
          exact le_trans h0 (le_max_right z 0)
        · exact le_trans h1.2 h2
    | root y =>
      cases c with
      | q z =>
        simp only [numKeyLe, decide_eq_true_eq] at *
        exact ⟨h2.1, le_trans h1 h2.2⟩
      | root z =>
        simp only [numKeyLe, decide_eq_true_eq] at *
        linarith

theorem numKeyLe_total (a b : NumKey) : numKeyLe a b = true ∨ numKeyLe b a = true := by
  cases a with
  | q x =>
    cases b with
    | q y =>
      simp only [numKeyLe, decide_eq_true_eq]
      exact le_total x y
    | root y =>
      simp only [numKeyLe, decide_eq_true_eq]
      by_cases hx : x ≤ 0
      · exact Or.inl (Or.inl hx)
      · push_neg at hx
        rcases le_total (x ^ 2) (max y 0) with h | h
        · exact Or.inl (Or.inr h)
        · exact Or.inr ⟨le_of_lt hx, h⟩
  | root x =>
    cases b with
    | q y =>
      simp only [numKeyLe, decide_eq_true_eq]
      by_cases hy : y ≤ 0
      · exact Or.inr (Or.inl hy)
      · push_neg at hy
        rcases le_total (max x 0) (y ^ 2) with h | h
        · exact Or.inl ⟨le_of_lt hy, h⟩
        · exact Or.inr (Or.inr h)
    | root y =>
      simp only [numKeyLe, decide_eq_true_eq]
      exact le_total _ _

theorem dvLe_trans (a b c : DataVal) (h1 : dvLe a b = true) (h2 : dvLe b c = true) :
    dvLe a c = true := by
  unfold dvLe at *
  rcases hka : dvKey a with k | r <;> rcases hkb : dvKey b with k2 | r2 <;>
    rcases hkc : dvKey c with k3 | r3 <;> simp_all
  · exact numKeyLe_trans _ _ _ h1 h2
  · exact le_trans h1 h2

theorem dvLe_total (a b : DataVal) : dvLe a b = true ∨ dvLe b a = true := by
  unfold dvLe
  rcases hka : dvKey a with k | r <;> rcases hkb : dvKey b with k2 | r2 <;> simp_all
  · exact numKeyLe_total _ _
  · exact Nat.le_total r r2

theorem rowSortLe_trans (a b c : HostMetricRow)
    (h1 : rowSortLe a b = true) (h2 : rowSortLe b c = true) : rowSortLe a c = true := by
  unfold rowSortLe at *
  rcases ha : a.value with _ | av <;> rcases hb : b.value with _ | bv <;>
    rcases hc : c.value with _ | cv <;> simp_all
  exact dvLe_trans _ _ _ h2 h1

theorem rowSortLe_total (a b : HostMetricRow) :
    rowSortLe a b = true ∨ rowSortLe b a = true := by
  unfold rowSortLe
  rcases ha : a.value with _ | av <;> rcases hb : b.value with _ | bv <;> simp_all
  exact dvLe_total bv av

/-- C4 (amended): when a limit is given, `get_host_by_metric` applies it
by truncating the flattened rows BEFORE sorting; the returned records are
the sort — descending by value with nulls last — of the first `limit`
collected rows (a permutation of them), not of the full row set. -/
theorem limit_truncates_before_sort (now : Rat) (menv : MultiEnv) (metric_name : String)
    (st : Option String) (tf tt : Int) (n : Nat) (out : HBMResult)
    (hok : get_host_by_metric now menv metric_name st tf tt (some n) = .ok out)
    (hne : out ≠ .emptyFrame) :
    ∃ items rows0,
      get_item_detail_all menv.connected menv.allItemRows = .ok (some items) ∧
      collectRows now menv metric_name st tf tt
        ((items.map (fun i => i.hostname)).dedup) = .ok rows0 ∧
      out = .resp (_success_response
        (some (.rowRecords (List.insertionSort RowOrder (rows0.take n)))) none
        (some metric_name) none none) ∧
      (List.insertionSort RowOrder (rows0.take n)).Sorted RowOrder ∧
      (List.insertionSort RowOrder (rows0.take n)).Perm (rows0.take n) := by
  haveI hTot : IsTotal HostMetricRow RowOrder := ⟨fun a b => rowSortLe_total a b⟩
  haveI hTrans : IsTrans HostMetricRow RowOrder :=
    ⟨fun a b c h1 h2 => rowSortLe_trans a b c h1 h2⟩
  simp only [get_host_by_metric] at hok
  split at hok
  · exact absurd hok (by simp)
  · exact absurd ((Except.ok.inj hok) ▸ hne) (by simp)
  · rename_i items heqitems
    split at hok
    · exact absurd hok (by simp)
    · rename_i rows0 heqrows
      split at hok
      · exact absurd hok (by simp)
      · rename_i sorted heqsort
        rw [sortRows] at heqsort
        split at heqsort
        · refine ⟨items, rows0, heqitems, heqrows, ?_, ?_, ?_⟩
          · rw [← Except.ok.inj hok, ← Except.ok.inj heqsort]
          · exact List.sorted_insertionSort RowOrder _
          · exact List.perm_insertionSort RowOrder _
        · exact Except.noConfusion heqsort

/-! Concrete evaluations of the pipeline, used by witnesses and
counterexamples. -/

theorem gmdHist : get_metric_data 1000000 envHist "h1" "m" 999000 999500 none =
    .ok (_success_response (some (.data (.rows [⟨30, 1⟩, ⟨20, 5⟩, ⟨10, 10⟩])))
      (some "h1") (some "m") (some "%") none) := by
  norm_num [get_metric_data, envHist, itemRowNum, get_monitoring_Status,
    get_item_detail, map_item, historyTableName, trendsTableName,
    convert_day_7d, convert_day_365d, pyTruncInt, historyThreshold,
    trendsThreshold, get_function_name, validStats, optTruthy, Except.map,
    get_history_data]

theorem gmdLast : get_metric_data 1000000 envHist "h1" "m" 999000 999500 (some "last") =
    .ok (_success_response (some (.data (.rows [⟨30, 1⟩])))
      (some "h1") (some "m") (some "%") (some "last")) := by
  norm_num [get_metric_data, envHist, itemRowNum, get_monitoring_Status,
    get_item_detail, map_item, historyTableName, trendsTableName,
    convert_day_7d, convert_day_365d, pyTruncInt, historyThreshold,
    trendsThreshold, get_function_name, validStats, optTruthy, Except.map,
    get_history_data, compute_statistic, pyMaxByClock]
  decide

theorem gmdDis : get_metric_data 1000000 envDis "h1" "m" 0 10 none =
    .ok (_error_response "Item m is disabled" "h1" "m" "%" none) := by
  norm_num [get_metric_data, envDis, itemRowDisabled, get_monitoring_Status,
    get_item_detail, map_item, historyTableName, trendsTableName, Except.map]
  decide

theorem collectHist : collectRows 1000000 menvHist "m" none 999000 999500 ["h1"] =
    .ok [⟨some "h1", some "%", some 30, some (.num 1)⟩,
         ⟨some "h1", some "%", some 20, some (.num 5)⟩,
         ⟨some "h1", some "%", some 10, some (.num 10)⟩] := by
  have hper : menvHist.perHost "h1" = envHist := rfl
  simp only [collectRows, hper, gmdHist]
  decide

theorem collectDis : collectRows 1000000 menvDis "m" none 0 10 ["h1"] =
    .ok [⟨some "h1", some "%", none, none⟩] := by
  have hper : menvDis.perHost "h1" = envDis := rfl
  simp only [collectRows, hper, gmdDis]
  decide

theorem ghbmLim : get_host_by_metric 1000000 menvHist "m" none 999000 999500 (some 2) =
    .ok (.resp (_success_response (some (.rowRecords
      [⟨some "h1", some "%", some 20, some (.num 5)⟩,
       ⟨some "h1", some "%", some 30, some (.num 1)⟩])) none (some "m") none none)) := by
  have hitems : get_item_detail_all menvHist.connected menvHist.allItemRows =
      .ok (some [(⟨"h1", 1, 1, "m", "7d", "365d", 0, 0, "%", some "history",
        some "trends"⟩ : ItemDetails)]) := by
    decide
  have hhosts :
      (([(⟨"h1", 1, 1, "m", "7d", "365d", 0, 0, "%", some "history",
        some "trends"⟩ : ItemDetails)]).map
          (fun i => i.hostname)).dedup = ["h1"] := by decide
  simp only [get_host_by_metric, hitems, hhosts, collectHist]
  decide

theorem ghbmDis : get_host_by_metric 1000000 menvDis "m" none 0 10 none =
    .ok (.resp (_success_response (some (.rowRecords
      [⟨some "h1", some "%", none, none⟩])) none (some "m") none none)) := by
  have hitems : get_item_detail_all menvDis.connected menvDis.allItemRows =
      .ok (some [(⟨"h1", 1, 1, "m", "7d", "365d", 1, 1, "%", some "history_str",
        none⟩ : ItemDetails)]) := by
    decide
  have hhosts :
      (([(⟨"h1", 1, 1, "m", "7d", "365d", 1, 1, "%", some "history_str",
        none⟩ : ItemDetails)]).map
          (fun i => i.hostname)).dedup = ["h1"] := by decide
  simp only [get_host_by_metric, hitems, hhosts, collectDis]
  decide

/-- Witness for C4: the concrete three-row scenario with `limit = 2`. -/
theorem limit_truncates_before_sort_witness :
    ∃ items rows0,
      get_item_detail_all menvHist.connected menvHist.allItemRows = .ok (some items) ∧
      collectRows 1000000 menvHist "m" none 999000 999500
        ((items.map (fun i => i.hostname)).dedup) = .ok rows0 ∧
      HBMResult.resp (_success_response (some (.rowRecords
        [⟨some "h1", some "%", some 20, some (.num 5)⟩,
         ⟨some "h1", some "%", some 30, some (.num 1)⟩])) none (some "m") none none) =
        .resp (_success_response
          (some (.rowRecords (List.insertionSort RowOrder (rows0.take 2)))) none
          (some "m") none none) ∧
      (List.insertionSort RowOrder (rows0.take 2)).Sorted RowOrder ∧
      (List.insertionSort RowOrder (rows0.take 2)).Perm (rows0.take 2) :=
  limit_truncates_before_sort 1000000 menvHist "m" none 999000 999500 2 _
    ghbmLim (by decide)

/-- Counterexample for C4 as stated: with flattened rows of values 1, 5,
10 (in fetch order) and `limit = 2`, the source returns the rows with
values 5 and 1, whereas truncating AFTER the sort would keep the rows
with values 10 and 5. -/
theorem limit_applied_before_sort_cex :
    (get_host_by_metric 1000000 menvHist "m" none 999000 999500 (some 2) =
      .ok (.resp (_success_response (some (.rowRecords
        [⟨some "h1", some "%", some 20, some (.num 5)⟩,
         ⟨some "h1", some "%", some 30, some (.num 1)⟩])) none (some "m") none none))) ∧
    (collectRows 1000000 menvHist "m" none 999000 999500 ["h1"] =
      .ok [⟨some "h1", some "%", some 30, some (.num 1)⟩,
           ⟨some "h1", some "%", some 20, some (.num 5)⟩,
           ⟨some "h1", some "%", some 10, some (.num 10)⟩]) ∧
    ((List.insertionSort RowOrder
        [(⟨some "h1", some "%", some 30, some (.num 1)⟩ : HostMetricRow),
         ⟨some "h1", some "%", some 20, some (.num 5)⟩,
         ⟨some "h1", some "%", some 10, some (.num 10)⟩]).take 2 =
      [⟨some "h1", some "%", some 10, some (.num 10)⟩,
       ⟨some "h1", some "%", some 20, some (.num 5)⟩]) ∧
    ([(⟨some "h1", some "%", some 20, some (.num 5)⟩ : HostMetricRow),
      ⟨some "h1", some "%", some 30, some (.num 1)⟩] ≠
     [⟨some "h1", some "%", some 10, some (.num 10)⟩,
      ⟨some "h1", some "%", some 20, some (.num 5)⟩]) :=
  ⟨ghbmLim, collectHist, by decide, by decide⟩

/-- Witness for C5: the error response of the disabled-item scenario
contributes exactly one null row. -/
theorem failed_host_contributes_null_row_witness :
    rowsFromResponse (_error_response "Item m is disabled" "h1" "m" "%" none) =
      [⟨some "h1",
        respGetStr (_error_response "Item m is disabled" "h1" "m" "%" none) "unit",
        none, none⟩] :=
  failed_host_contributes_null_row 1000000 envDis "h1" "m" 0 10 none _ gmdDis rfl

/-- Counterexample for C5 as stated: the per-host resolution for `h1`
fails with a disabled-item error response, yet `get_host_by_metric` still
emits one row for that host instead of omitting it. -/
theorem failed_host_not_omitted_cex :
    (get_metric_data 1000000 envDis "h1" "m" 0 10 none =
      .ok (_error_response "Item m is disabled" "h1" "m" "%" none)) ∧
    (get_host_by_metric 1000000 menvDis "m" none 0 10 none =
      .ok (.resp (_success_response (some (.rowRecords
        [⟨some "h1", some "%", none, none⟩])) none (some "m") none none))) :=
  ⟨gmdDis, ghbmDis⟩

/-- Witness for C9: a string item (`history_str`) requested with the
statistic `avg`; the result is the raw history fetch with the statistic
dropped. -/
theorem nonnumeric_item_uses_history_only_witness :
    get_metric_data 1000000 envStr "h1" "m" 0 10 (some "avg") =
      (match get_history_data true envStr.historyFetch "history_str"
          (if some "avg" = some "last" then some "avg" else none) with
       | .error e => .error e
       | .ok d => .ok (_success_response (some (.data d)) (some "h1")
           (some "m") (some itemRowStr.units)
           (if some "avg" = some "last" then some "avg" else none))) :=
  nonnumeric_item_uses_history_only 1000000 envStr "h1" "m" 0 10 (some "avg")
    (.code 0) itemRowStr [] "history_str" (by decide) (by decide) (by decide) rfl rfl
    (Or.inl rfl) rfl rfl

/-- Witness for C10: a numeric item resolved with the statistic `last`;
the success response keeps `status`, `data` and `statistical_measure` and
carries no null field. -/
theorem success_response_key_policy_witness :
    (∀ k v, (k, v) ∈ _success_response (some (.data (.rows [⟨30, 1⟩])))
        (some "h1") (some "m") (some "%") (some "last") → v ≠ RVal.null) ∧
    respGet (_success_response (some (.data (.rows [⟨30, 1⟩])))
      (some "h1") (some "m") (some "%") (some "last")) "status" =
        some (.str "success") ∧
    (∃ d, respGet (_success_response (some (.data (.rows [⟨30, 1⟩])))
      (some "h1") (some "m") (some "%") (some "last")) "data" = some (.data d)) ∧
    ((∃ v, respGet (_success_response (some (.data (.rows [⟨30, 1⟩])))
      (some "h1") (some "m") (some "%") (some "last")) "statistical_measure" = some v) ↔
      droppedStat envHist (some "last") ≠ none) :=
  success_response_key_policy 1000000 envHist "h1" "m" 999000 999500 (some "last") _
    gmdLast rfl
